import Mathlib

/-!
Shallow embedding of the swap-execution core of a constant-product AMM pool
(source: `src/programs/cp-swap/src/instructions/swap.rs`).  Machine integers
are modelled as `Nat` with explicit `< 2 ^ 64` / `< 2 ^ 128` checks where the
source uses checked arithmetic or fallible conversions; a checked operation
that would panic in the source becomes an error value here.  Components of
the repository that are referenced by `swap.rs` but whose source is not part
of the excerpt (the transfer-fee oracle, the reserve reconciler
`vault_amount_without_fee`, and `CurveCalculator::swap`) are modelled from
the specification, as marked on their doc comments.
-/

/-- Trade direction of a swap, as in the source's `TradeDirection` enum. -/
inductive TradeDirection where
  | ZeroForOne
  | OneForZero
deriving DecidableEq

/-- Modelled from the spec: per-mint transfer-fee schedule (§3
Transfer-Fee Schedule) — a basis-point rate together with a maximum fee cap.
Mints without the fee extension carry the implicit zero schedule. -/
structure FeeSchedule where
  bps : ℕ
  cap : ℕ
deriving DecidableEq

/-- The implicit zero fee schedule of a mint without the fee extension. -/
def zeroFeeSchedule : FeeSchedule := ⟨0, 0⟩

/-- Modelled from the spec: §4.1 `forwardFee(schedule, amount) -> fee`,
`fee = min(cap, ceil(amount * bps / 10_000))`; the zero schedule yields 0. -/
def forwardFee (s : FeeSchedule) (amount : ℕ) : ℕ :=
  min s.cap ((amount * s.bps + 9999) / 10000)

/-- Modelled from the spec: the source's `get_transfer_fee` helper (not in
the excerpt) is the Transfer-Fee Oracle's forward direction, §4.1. -/
def get_transfer_fee (s : FeeSchedule) (amount : ℕ) : ℕ := forwardFee s amount

/-- Bounded upward search used to realise the minimal-gross characterisation
of §4.1: starting at `g`, return the first amount whose net value after the
forward fee reaches `d`, falling back to `g + fuel` when the fuel runs out. -/
def invFrom (s : FeeSchedule) (d : ℕ) : ℕ → ℕ → ℕ
  | g, 0 => g
  | g, fuel + 1 => if d ≤ g - forwardFee s g then g else invFrom s d (g + 1) fuel

/-- Modelled from the spec: §4.1 `inverseFee(schedule, desiredNet) ->
grossAmount`, the minimal `gross` such that
`gross - forwardFee(schedule, gross) >= desiredNet`.  The search starts at
`desiredNet` (no smaller gross can have a net that large) and is complete
because `desiredNet + cap` always satisfies the condition. -/
def inverseFee (s : FeeSchedule) (d : ℕ) : ℕ := invFrom s d d s.cap

/-- Modelled from the spec: the source's `get_transfer_inverse_fee` helper
(not in the excerpt) is the Transfer-Fee Oracle's inverse direction, §4.1,
used by the orchestrator at §4.7 step TransfersIssued as
`gross input transfer = actualAmountIn + inverseFee(schedule, actualAmountIn)`. -/
def get_transfer_inverse_fee (s : FeeSchedule) (post_fee_amount : ℕ) : ℕ :=
  inverseFee s post_fee_amount

/-- The pool's persistent state, restricted to the fields `swap.rs` reads or
writes: the two vault addresses (modelled as naturals), the four fee
accumulators, and the swap-enabled status bit. -/
structure PoolState where
  token_0_vault : ℕ
  token_1_vault : ℕ
  protocol_fees_token_0 : ℕ
  protocol_fees_token_1 : ℕ
  fund_fees_token_0 : ℕ
  fund_fees_token_1 : ℕ
  swapEnabled : Bool
deriving DecidableEq

/-- Modelled from the spec: §4.2 Reserve Reconciler — subtracts each asset
side's `(protocol_fee + fund_fee)` accumulator from that side's raw vault
balance with checked subtraction, failing (None) if an accumulator exceeds
the raw balance.  The pairing is positional and per asset: the first
argument is the raw token-0 vault balance (netted against the token-0
accumulators) and the second the raw token-1 vault balance (netted against
the token-1 accumulators). -/
def PoolState.vault_amount_without_fee (p : PoolState) (vault_0 vault_1 : ℕ) :
    Option (ℕ × ℕ) :=
  if p.protocol_fees_token_0 + p.fund_fees_token_0 ≤ vault_0 ∧
      p.protocol_fees_token_1 + p.fund_fees_token_1 ≤ vault_1 then
    some (vault_0 - (p.protocol_fees_token_0 + p.fund_fees_token_0),
          vault_1 - (p.protocol_fees_token_1 + p.fund_fees_token_1))
  else
    none

/-- Modelled from the spec: the fixed external fee-rate denominator (§3 Fee
Configuration, "a fixed external denominator (e.g., 1,000,000)"). -/
def FEE_RATE_DENOMINATOR_VALUE : ℕ := 1000000

/-- Result record produced by the curve calculator, as in the source's
`SwapResult` consumed by `swap.rs`. -/
structure SwapResult where
  new_swap_source_amount : ℕ
  new_swap_destination_amount : ℕ
  source_amount_swapped : ℕ
  destination_amount_swapped : ℕ
  protocol_fee : ℕ
  fund_fee : ℕ
deriving DecidableEq

namespace CurveCalculator

/-- Modelled from the spec: §4.3 Curve Calculator.  All divisions floor.
1) `tradeFee = floor(actualAmountIn * tradeFeeRate / DENOMINATOR)`;
2) `protocolFee`, `fundFee` carved out of the trade fee;
3) `amountInAfterFee = actualAmountIn - tradeFee`;
4) constant-product output
   `floor(totalOutput * amountInAfterFee / (totalInput + amountInAfterFee))`;
5) `newSourceReserve = totalInput + actualAmountIn - protocolFee - fundFee`;
6) `newDestinationReserve = totalOutput - destinationAmountSwapped`;
7) None (ZeroTradingTokens at the caller) when `actualAmountIn = 0`,
   `totalOutput = 0`, or `destinationAmountSwapped = 0`.
The trade direction is accepted but does not enter the formulas. -/
def swap (source_amount swap_source_amount swap_destination_amount : ℕ)
    (_trade_direction : TradeDirection)
    (trade_fee_rate protocol_fee_rate fund_fee_rate : ℕ) : Option SwapResult :=
  let trade_fee := source_amount * trade_fee_rate / FEE_RATE_DENOMINATOR_VALUE
  let protocol_fee := trade_fee * protocol_fee_rate / FEE_RATE_DENOMINATOR_VALUE
  let fund_fee := trade_fee * fund_fee_rate / FEE_RATE_DENOMINATOR_VALUE
  let source_amount_less_fees := source_amount - trade_fee
  let destination_amount_swapped :=
    swap_destination_amount * source_amount_less_fees /
      (swap_source_amount + source_amount_less_fees)
  if source_amount = 0 ∨ swap_destination_amount = 0 ∨
      destination_amount_swapped = 0 then
    none
  else
    some
      { new_swap_source_amount :=
          swap_source_amount + source_amount - protocol_fee - fund_fee
        new_swap_destination_amount :=
          swap_destination_amount - destination_amount_swapped
        source_amount_swapped := source_amount
        destination_amount_swapped := destination_amount_swapped
        protocol_fee := protocol_fee
        fund_fee := fund_fee }

end CurveCalculator

/-- Errors the swap handler can surface.  `ArithmeticOverflow` stands for any
checked-arithmetic unwrap or fallible integer conversion in the source (a
fatal panic there); `InvariantViolation` is the error of the
`require_gte!(constant_after, constant_before)` guard; `Transfer e` is an
external transfer failure propagated as-is. -/
inductive SwapError where
  | NotApproved
  | ZeroTradingTokens
  | InvariantViolation
  | ExceededSlippage
  | ArithmeticOverflow
  | Transfer (e : ℕ)
deriving DecidableEq

/-- The inputs of one swap invocation: the pool record, the bound accounts'
observable data (vault keys and balances, mint fee schedules), the fee-rate
configuration from `amm_config`, and the two external transfer executors
(`none` = success, `some e` = failure with error code `e`). -/
structure SwapEnv where
  pool : PoolState
  input_vault_key : ℕ
  output_vault_key : ℕ
  input_vault_amount : ℕ
  output_vault_amount : ℕ
  input_mint_schedule : FeeSchedule
  output_mint_schedule : FeeSchedule
  trade_fee_rate : ℕ
  protocol_fee_rate : ℕ
  fund_fee_rate : ℕ
  transferIn : ℕ → Option ℕ
  transferOut : ℕ → Option ℕ

/-- The Anchor account constraints on the two vault accounts (`swap.rs`
lines 33–44): each of `input_vault` and `output_vault` must merely equal one
of the pool's two vault addresses. -/
def swapConstraintsOk (env : SwapEnv) : Bool :=
  (env.input_vault_key = env.pool.token_0_vault ∨
    env.input_vault_key = env.pool.token_1_vault) ∧
  (env.output_vault_key = env.pool.token_0_vault ∨
    env.output_vault_key = env.pool.token_1_vault)

/-- The trade-direction-and-totals branch of `swap.rs` (lines 81–106): the
direction is ZeroForOne exactly when the input vault's key equals the pool's
`token_0_vault`; the totals come from `vault_amount_without_fee`, called with
the arguments in vault order `(input, output)` in the ZeroForOne branch and
`(output, input)` in the OneForZero branch, and destructured as
`(total_input, total_output)` in both branches. -/
def computeTotals (env : SwapEnv) : Option (TradeDirection × ℕ × ℕ) :=
  if env.input_vault_key = env.pool.token_0_vault then
    (env.pool.vault_amount_without_fee env.input_vault_amount
        env.output_vault_amount).map
      (fun t => (TradeDirection.ZeroForOne, t.1, t.2))
  else
    (env.pool.vault_amount_without_fee env.output_vault_amount
        env.input_vault_amount).map
      (fun t => (TradeDirection.OneForZero, t.1, t.2))

/-- The fee-ledger update of `swap.rs` (lines 148–165): checked addition of
the protocol and fund fees onto the accumulator pair of the input asset
side; `none` models a checked-add unwrap failure. -/
def updateFees (p : PoolState) (d : TradeDirection) (protocol_fee fund_fee : ℕ) :
    Option PoolState :=
  match d with
  | .ZeroForOne =>
      if p.protocol_fees_token_0 + protocol_fee < 2 ^ 64 ∧
          p.fund_fees_token_0 + fund_fee < 2 ^ 64 then
        some { p with
          protocol_fees_token_0 := p.protocol_fees_token_0 + protocol_fee
          fund_fees_token_0 := p.fund_fees_token_0 + fund_fee }
      else none
  | .OneForZero =>
      if p.protocol_fees_token_1 + protocol_fee < 2 ^ 64 ∧
          p.fund_fees_token_1 + fund_fee < 2 ^ 64 then
        some { p with
          protocol_fees_token_1 := p.protocol_fees_token_1 + protocol_fee
          fund_fees_token_1 := p.fund_fees_token_1 + fund_fee }
      else none

/-- Observable outcome of a successful swap: the committed pool record, the
classification and net reserves used for pricing, the curve result, and the
two gross transfer amounts handed to the transfer executor. -/
structure SwapSuccess where
  pool : PoolState
  trade_direction : TradeDirection
  total_input : ℕ
  total_output : ℕ
  result : SwapResult
  inputTransferAmount : ℕ
  outputTransferAmount : ℕ
deriving DecidableEq

/-- The two external transfer calls of `swap.rs` (lines 167–185): transfer
from the user to the input vault, then from the output vault to the user,
each failure propagated as-is; on success the prepared outcome is
committed. -/
def swapTransfers (env : SwapEnv) (s : SwapSuccess) :
    Except SwapError SwapSuccess :=
  match env.transferIn s.inputTransferAmount with
  | some e => .error (.Transfer e)
  | none =>
    match env.transferOut s.outputTransferAmount with
    | some e => .error (.Transfer e)
    | none => .ok s

/-- The post-slippage tail of `swap.rs` (lines 145–187): `u64` conversion of
the protocol and fund fees, the fee-ledger update, then the external
transfers. -/
def swapCommit (env : SwapEnv) (trade_direction : TradeDirection)
    (total_input_token_amount total_output_token_amount : ℕ)
    (result : SwapResult) : Except SwapError SwapSuccess :=
  if result.protocol_fee < 2 ^ 64 ∧ result.fund_fee < 2 ^ 64 then
    match updateFees env.pool trade_direction result.protocol_fee
        result.fund_fee with
    | none => .error .ArithmeticOverflow
    | some pool1 =>
      swapTransfers env
        { pool := pool1
          trade_direction := trade_direction
          total_input := total_input_token_amount
          total_output := total_output_token_amount
          result := result
          inputTransferAmount :=
            result.source_amount_swapped +
              get_transfer_inverse_fee env.input_mint_schedule
                result.source_amount_swapped
          outputTransferAmount := result.destination_amount_swapped }
  else .error .ArithmeticOverflow

/-- The transfer-amount block of `swap.rs` (lines 127–143): the gross input
transfer amount (`u64` conversion of `source_amount_swapped`, inverse-fee
lookup, checked add), then the gross output transfer amount (`u64`
conversion of `destination_amount_swapped`, forward output fee, checked
subtraction) with the slippage guard, before handing over to the ledger
update and transfers. -/
def swapIssue (env : SwapEnv) (minimum_amount_out : ℕ)
    (trade_direction : TradeDirection)
    (total_input_token_amount total_output_token_amount : ℕ)
    (result : SwapResult) : Except SwapError SwapSuccess :=
  if result.source_amount_swapped < 2 ^ 64 then
    if result.source_amount_swapped + get_transfer_inverse_fee
        env.input_mint_schedule result.source_amount_swapped < 2 ^ 64 then
      if result.destination_amount_swapped < 2 ^ 64 then
        if forwardFee env.output_mint_schedule result.destination_amount_swapped
            ≤ result.destination_amount_swapped then
          if result.destination_amount_swapped -
              forwardFee env.output_mint_schedule result.destination_amount_swapped
              < minimum_amount_out then
            .error .ExceededSlippage
          else
            swapCommit env trade_direction total_input_token_amount
              total_output_token_amount result
        else .error .ArithmeticOverflow
      else .error .ArithmeticOverflow
    else .error .ArithmeticOverflow
  else .error .ArithmeticOverflow

/-- The swap handler of `swap.rs` (lines 71–188), step for step: status
check; input-side transfer fee stripped with saturating subtraction (which
is `Nat` subtraction here); direction and net totals; `constant_before` by
checked 128-bit multiplication; curve calculation with `None` mapped to
`ZeroTradingTokens`; `constant_after` by checked 128-bit multiplication and
the `require_gte!` invariant guard; then the transfer amounts, slippage
guard, fee-ledger update and external transfers via `swapIssue`. -/
def swap (env : SwapEnv) (amount_in minimum_amount_out : ℕ) :
    Except SwapError SwapSuccess :=
  if env.pool.swapEnabled = true then
    match computeTotals env with
    | none => .error .ArithmeticOverflow
    | some (trade_direction, total_input_token_amount, total_output_token_amount) =>
      if total_input_token_amount * total_output_token_amount < 2 ^ 128 then
        match CurveCalculator.swap
            (amount_in - get_transfer_fee env.input_mint_schedule amount_in)
            total_input_token_amount
            total_output_token_amount trade_direction env.trade_fee_rate
            env.protocol_fee_rate env.fund_fee_rate with
        | none => .error .ZeroTradingTokens
        | some result =>
          if result.new_swap_source_amount * result.new_swap_destination_amount
              < 2 ^ 128 then
            if result.new_swap_source_amount * result.new_swap_destination_amount
                < total_input_token_amount * total_output_token_amount then
              .error .InvariantViolation
            else
              swapIssue env minimum_amount_out trade_direction
                total_input_token_amount total_output_token_amount result
          else .error .ArithmeticOverflow
      else .error .ArithmeticOverflow
  else .error .NotApproved

/-- The pool record observable after a call, under the host's transactional
guarantee (§5): a failed swap discards every mutation, so the caller sees
the pre-call pool unless the swap committed. -/
def finalPool (env : SwapEnv) (amount_in minimum_amount_out : ℕ) : PoolState :=
  match swap env amount_in minimum_amount_out with
  | .ok s => s.pool
  | .error _ => env.pool

/-! ### Transfer-fee oracle lemmas -/

theorem forwardFee_le_cap (s : FeeSchedule) (x : ℕ) : forwardFee s x ≤ s.cap :=
  min_le_left _ _

theorem forwardFee_zeroSchedule (x : ℕ) : forwardFee zeroFeeSchedule x = 0 := by
  simp [forwardFee, zeroFeeSchedule]

theorem le_invFrom (s : FeeSchedule) (d : ℕ) :
    ∀ fuel g, g ≤ invFrom s d g fuel := by
  intro fuel
  induction fuel with
  | zero => intro g; exact le_refl g
  | succ n ih =>
      intro g
      simp only [invFrom]
      split
      · exact le_refl g
      · exact le_trans (Nat.le_succ g) (ih (g + 1))

theorem invFrom_reaches (s : FeeSchedule) (d : ℕ) :
    ∀ fuel g, d ≤ (g + fuel) - forwardFee s (g + fuel) →
      d ≤ invFrom s d g fuel - forwardFee s (invFrom s d g fuel) := by
  intro fuel
  induction fuel with
  | zero => intro g h; simpa using h
  | succ n ih =>
      intro g h
      simp only [invFrom]
      split
      · assumption
      · apply ih (g + 1)
        have hgn : g + 1 + n = g + (n + 1) := by omega
        rw [hgn]
        exact h

theorem invFrom_minimal (s : FeeSchedule) (d : ℕ) :
    ∀ fuel g g', g ≤ g' → g' < invFrom s d g fuel →
      ¬ d ≤ g' - forwardFee s g' := by
  intro fuel
  induction fuel with
  | zero => intro g g' hle hlt; exact absurd (lt_of_le_of_lt hle hlt) (lt_irrefl g)
  | succ n ih =>
      intro g g' hle hlt
      simp only [invFrom] at hlt
      split at hlt
      · exact absurd (lt_of_le_of_lt hle hlt) (lt_irrefl g)
      · rcases eq_or_lt_of_le hle with rfl | hgt
        · assumption
        · exact ih (g + 1) g' hgt hlt

theorem inverseFee_net_ge (s : FeeSchedule) (d : ℕ) :
    d ≤ inverseFee s d - forwardFee s (inverseFee s d) := by
  apply invFrom_reaches
  have := forwardFee_le_cap s (d + s.cap)
  omega

theorem inverseFee_minimal (s : FeeSchedule) (d g : ℕ)
    (h : d ≤ g - forwardFee s g) : inverseFee s d ≤ g := by
  by_contra hlt
  push_neg at hlt
  rcases le_or_lt d g with hdg | hgd
  · exact invFrom_minimal s d s.cap d g hdg hlt h
  · have : g - forwardFee s g ≤ g := Nat.sub_le _ _
    omega

theorem inverseFee_zeroSchedule (d : ℕ) : inverseFee zeroFeeSchedule d = d := rfl

/-! ### Curve calculator inversion -/

theorem curve_swap_some_elim {a tin tout : ℕ} {dir : TradeDirection} {f1 f2 f3 : ℕ}
    {r : SwapResult}
    (h : CurveCalculator.swap a tin tout dir f1 f2 f3 = some r) :
    r.source_amount_swapped = a ∧
    r.protocol_fee = a * f1 / FEE_RATE_DENOMINATOR_VALUE * f2 / FEE_RATE_DENOMINATOR_VALUE ∧
    r.fund_fee = a * f1 / FEE_RATE_DENOMINATOR_VALUE * f3 / FEE_RATE_DENOMINATOR_VALUE ∧
    r.destination_amount_swapped =
      tout * (a - a * f1 / FEE_RATE_DENOMINATOR_VALUE) /
        (tin + (a - a * f1 / FEE_RATE_DENOMINATOR_VALUE)) ∧
    r.new_swap_source_amount = tin + a - r.protocol_fee - r.fund_fee ∧
    r.new_swap_destination_amount = tout - r.destination_amount_swapped ∧
    a ≠ 0 ∧ tout ≠ 0 ∧ r.destination_amount_swapped ≠ 0 := by
  simp only [CurveCalculator.swap] at h
  split at h
  · exact absurd h (by simp)
  · rename_i hcond
    push_neg at hcond
    obtain rfl : r = _ := (Option.some.inj h).symm
    refine ⟨rfl, rfl, rfl, rfl, rfl, rfl, hcond.1, hcond.2.1, hcond.2.2⟩

/-! ### Fee-ledger inversion -/

theorem updateFees_elim {p : PoolState} {dir : TradeDirection} {pf ff : ℕ}
    {p1 : PoolState} (h : updateFees p dir pf ff = some p1) :
    (dir = .ZeroForOne →
      p1.protocol_fees_token_0 = p.protocol_fees_token_0 + pf ∧
      p1.fund_fees_token_0 = p.fund_fees_token_0 + ff ∧
      p1.protocol_fees_token_1 = p.protocol_fees_token_1 ∧
      p1.fund_fees_token_1 = p.fund_fees_token_1) ∧
    (dir = .OneForZero →
      p1.protocol_fees_token_1 = p.protocol_fees_token_1 + pf ∧
      p1.fund_fees_token_1 = p.fund_fees_token_1 + ff ∧
      p1.protocol_fees_token_0 = p.protocol_fees_token_0 ∧
      p1.fund_fees_token_0 = p.fund_fees_token_0) := by
  cases dir
  case ZeroForOne =>
    simp only [updateFees] at h
    split at h
    · simp only [Option.some.injEq] at h
      subst h
      exact ⟨fun _ => ⟨rfl, rfl, rfl, rfl⟩, fun hd => absurd hd (by simp)⟩
    · exact Option.noConfusion h
  case OneForZero =>
    simp only [updateFees] at h
    split at h
    · simp only [Option.some.injEq] at h
      subst h
      exact ⟨fun hd => absurd hd (by simp), fun _ => ⟨rfl, rfl, rfl, rfl⟩⟩
    · exact Option.noConfusion h

/-! ### Stage inversions of a successful swap -/

theorem swapTransfers_ok_elim {env : SwapEnv} {s s' : SwapSuccess}
    (h : swapTransfers env s = .ok s') :
    s' = s ∧ env.transferIn s.inputTransferAmount = none ∧
      env.transferOut s.outputTransferAmount = none := by
  unfold swapTransfers at h
  split at h
  · exact Except.noConfusion h
  · rename_i hTIn
    split at h
    · exact Except.noConfusion h
    · rename_i hTOut
      exact ⟨(Except.ok.inj h).symm, hTIn, hTOut⟩

theorem swapCommit_ok_elim {env : SwapEnv} {dir : TradeDirection}
    {ti tout : ℕ} {r : SwapResult} {s : SwapSuccess}
    (h : swapCommit env dir ti tout r = .ok s) :
    r.protocol_fee < 2 ^ 64 ∧ r.fund_fee < 2 ^ 64 ∧
    updateFees env.pool dir r.protocol_fee r.fund_fee = some s.pool ∧
    s.trade_direction = dir ∧ s.total_input = ti ∧ s.total_output = tout ∧
    s.result = r ∧
    s.inputTransferAmount = r.source_amount_swapped +
      get_transfer_inverse_fee env.input_mint_schedule r.source_amount_swapped ∧
    s.outputTransferAmount = r.destination_amount_swapped ∧
    env.transferIn s.inputTransferAmount = none ∧
    env.transferOut s.outputTransferAmount = none := by
  unfold swapCommit at h
  split at h
  · rename_i hPF
    split at h
    · exact Except.noConfusion h
    · rename_i pool1 hLedger
      obtain ⟨rfl, hTIn, hTOut⟩ := swapTransfers_ok_elim h
      exact ⟨hPF.1, hPF.2, hLedger, rfl, rfl, rfl, rfl, rfl, rfl, hTIn, hTOut⟩
  · exact Except.noConfusion h

theorem swapIssue_ok_elim {env : SwapEnv} {m : ℕ} {dir : TradeDirection}
    {ti tout : ℕ} {r : SwapResult} {s : SwapSuccess}
    (h : swapIssue env m dir ti tout r = .ok s) :
    r.source_amount_swapped < 2 ^ 64 ∧
    r.source_amount_swapped +
      get_transfer_inverse_fee env.input_mint_schedule r.source_amount_swapped
      < 2 ^ 64 ∧
    r.destination_amount_swapped < 2 ^ 64 ∧
    forwardFee env.output_mint_schedule r.destination_amount_swapped ≤
      r.destination_amount_swapped ∧
    m ≤ r.destination_amount_swapped -
      forwardFee env.output_mint_schedule r.destination_amount_swapped ∧
    r.protocol_fee < 2 ^ 64 ∧ r.fund_fee < 2 ^ 64 ∧
    updateFees env.pool dir r.protocol_fee r.fund_fee = some s.pool ∧
    s.trade_direction = dir ∧ s.total_input = ti ∧ s.total_output = tout ∧
    s.result = r ∧
    s.inputTransferAmount = r.source_amount_swapped +
      get_transfer_inverse_fee env.input_mint_schedule r.source_amount_swapped ∧
    s.outputTransferAmount = r.destination_amount_swapped ∧
    env.transferIn s.inputTransferAmount = none ∧
    env.transferOut s.outputTransferAmount = none := by
  unfold swapIssue at h
  split at h
  case isFalse => exact Except.noConfusion h
  rename_i hSrc
  split at h
  case isFalse => exact Except.noConfusion h
  rename_i hAdd
  split at h
  case isFalse => exact Except.noConfusion h
  rename_i hDst
  split at h
  case isFalse => exact Except.noConfusion h
  rename_i hFee
  split at h
  case isTrue => exact Except.noConfusion h
  rename_i hSlip
  obtain ⟨hPF1, hPF2, hLedger, h4, h5, h6, h7, h8, h9, hTIn, hTOut⟩ :=
    swapCommit_ok_elim h
  exact ⟨hSrc, hAdd, hDst, hFee, by omega, hPF1, hPF2, hLedger, h4, h5, h6, h7,
    h8, h9, hTIn, hTOut⟩

/-- Master inversion of a successful swap call: every guard along the path
passed and the outcome's fields are as the handler computed them. -/
theorem swap_ok_elim (env : SwapEnv) (a m : ℕ) (s : SwapSuccess)
    (h : swap env a m = .ok s) :
    env.pool.swapEnabled = true ∧
    computeTotals env = some (s.trade_direction, s.total_input, s.total_output) ∧
    s.total_input * s.total_output < 2 ^ 128 ∧
    CurveCalculator.swap (a - get_transfer_fee env.input_mint_schedule a)
      s.total_input s.total_output s.trade_direction env.trade_fee_rate
      env.protocol_fee_rate env.fund_fee_rate = some s.result ∧
    s.total_input * s.total_output ≤
      s.result.new_swap_source_amount * s.result.new_swap_destination_amount ∧
    s.result.new_swap_source_amount * s.result.new_swap_destination_amount
      < 2 ^ 128 ∧
    s.result.source_amount_swapped < 2 ^ 64 ∧
    s.inputTransferAmount = s.result.source_amount_swapped +
      get_transfer_inverse_fee env.input_mint_schedule
        s.result.source_amount_swapped ∧
    s.inputTransferAmount < 2 ^ 64 ∧
    s.result.destination_amount_swapped < 2 ^ 64 ∧
    forwardFee env.output_mint_schedule s.result.destination_amount_swapped ≤
      s.result.destination_amount_swapped ∧
    m ≤ s.result.destination_amount_swapped -
      forwardFee env.output_mint_schedule s.result.destination_amount_swapped ∧
    s.outputTransferAmount = s.result.destination_amount_swapped ∧
    s.result.protocol_fee < 2 ^ 64 ∧ s.result.fund_fee < 2 ^ 64 ∧
    updateFees env.pool s.trade_direction s.result.protocol_fee
      s.result.fund_fee = some s.pool ∧
    env.transferIn s.inputTransferAmount = none ∧
    env.transferOut s.outputTransferAmount = none := by
  unfold swap at h
  split at h
  case isFalse => exact Except.noConfusion h
  rename_i hEn
  split at h
  · exact Except.noConfusion h
  · rename_i dir ti tout hTot
    split at h
    case isFalse => exact Except.noConfusion h
    rename_i hBef
    split at h
    · exact Except.noConfusion h
    · rename_i r hCurve
      split at h
      case isFalse => exact Except.noConfusion h
      rename_i hAft
      split at h
      case isTrue => exact Except.noConfusion h
      rename_i hInv
      obtain ⟨hSrc, hAdd, hDst, hFee, hSlip, hPF1, hPF2, hLedger, h4, h5, h6,
        h7, h8, h9, hTIn, hTOut⟩ := swapIssue_ok_elim h
      subst h4; subst h5; subst h6; subst h7
      exact ⟨hEn, hTot, hBef, hCurve, by omega, hAft, hSrc, h8,
        by rw [h8]; exact hAdd, hDst, hFee, hSlip, h9, hPF1, hPF2, hLedger,
        hTIn, hTOut⟩

/-! ### Forward evaluation lemmas for the handler's stages -/

theorem swap_eval_issue (env : SwapEnv) (a m : ℕ) (dir : TradeDirection)
    (ti tout : ℕ) (r : SwapResult)
    (hEn : env.pool.swapEnabled = true)
    (hTot : computeTotals env = some (dir, ti, tout))
    (hBef : ti * tout < 2 ^ 128)
    (hCurve : CurveCalculator.swap (a - get_transfer_fee env.input_mint_schedule a)
      ti tout dir env.trade_fee_rate env.protocol_fee_rate env.fund_fee_rate = some r)
    (hAft : r.new_swap_source_amount * r.new_swap_destination_amount < 2 ^ 128)
    (hInv : ¬ (r.new_swap_source_amount * r.new_swap_destination_amount < ti * tout)) :
    swap env a m = swapIssue env m dir ti tout r := by
  unfold swap
  rw [if_pos hEn, hTot]
  dsimp only
  rw [if_pos hBef, hCurve]
  dsimp only
  rw [if_pos hAft, if_neg hInv]

theorem swap_eval_zeroTradingTokens (env : SwapEnv) (a m : ℕ)
    (dir : TradeDirection) (ti tout : ℕ)
    (hEn : env.pool.swapEnabled = true)
    (hTot : computeTotals env = some (dir, ti, tout))
    (hBef : ti * tout < 2 ^ 128)
    (hCurve : CurveCalculator.swap (a - get_transfer_fee env.input_mint_schedule a)
      ti tout dir env.trade_fee_rate env.protocol_fee_rate env.fund_fee_rate = none) :
    swap env a m = .error .ZeroTradingTokens := by
  unfold swap
  rw [if_pos hEn, hTot]
  dsimp only
  rw [if_pos hBef, hCurve]

theorem swap_eval_invariantViolation (env : SwapEnv) (a m : ℕ)
    (dir : TradeDirection) (ti tout : ℕ) (r : SwapResult)
    (hEn : env.pool.swapEnabled = true)
    (hTot : computeTotals env = some (dir, ti, tout))
    (hBef : ti * tout < 2 ^ 128)
    (hCurve : CurveCalculator.swap (a - get_transfer_fee env.input_mint_schedule a)
      ti tout dir env.trade_fee_rate env.protocol_fee_rate env.fund_fee_rate = some r)
    (hAft : r.new_swap_source_amount * r.new_swap_destination_amount < 2 ^ 128)
    (hInv : r.new_swap_source_amount * r.new_swap_destination_amount < ti * tout) :
    swap env a m = .error .InvariantViolation := by
  unfold swap
  rw [if_pos hEn, hTot]
  dsimp only
  rw [if_pos hBef, hCurve]
  dsimp only
  rw [if_pos hAft, if_pos hInv]

theorem swapIssue_eval_slippage (env : SwapEnv) (m : ℕ) (dir : TradeDirection)
    (ti tout : ℕ) (r : SwapResult)
    (hSrc : r.source_amount_swapped < 2 ^ 64)
    (hAdd : r.source_amount_swapped + get_transfer_inverse_fee
      env.input_mint_schedule r.source_amount_swapped < 2 ^ 64)
    (hDst : r.destination_amount_swapped < 2 ^ 64)
    (hFee : forwardFee env.output_mint_schedule r.destination_amount_swapped ≤
      r.destination_amount_swapped)
    (hSlip : r.destination_amount_swapped -
      forwardFee env.output_mint_schedule r.destination_amount_swapped < m) :
    swapIssue env m dir ti tout r = .error .ExceededSlippage := by
  unfold swapIssue
  rw [if_pos hSrc, if_pos hAdd, if_pos hDst, if_pos hFee, if_pos hSlip]

theorem swapIssue_eval_commit (env : SwapEnv) (m : ℕ) (dir : TradeDirection)
    (ti tout : ℕ) (r : SwapResult)
    (hSrc : r.source_amount_swapped < 2 ^ 64)
    (hAdd : r.source_amount_swapped + get_transfer_inverse_fee
      env.input_mint_schedule r.source_amount_swapped < 2 ^ 64)
    (hDst : r.destination_amount_swapped < 2 ^ 64)
    (hFee : forwardFee env.output_mint_schedule r.destination_amount_swapped ≤
      r.destination_amount_swapped)
    (hSlip : ¬ (r.destination_amount_swapped -
      forwardFee env.output_mint_schedule r.destination_amount_swapped < m)) :
    swapIssue env m dir ti tout r = swapCommit env dir ti tout r := by
  unfold swapIssue
  rw [if_pos hSrc, if_pos hAdd, if_pos hDst, if_pos hFee, if_neg hSlip]

theorem swapCommit_eval_transfers (env : SwapEnv) (dir : TradeDirection)
    (ti tout : ℕ) (r : SwapResult) (pool1 : PoolState)
    (hPF : r.protocol_fee < 2 ^ 64 ∧ r.fund_fee < 2 ^ 64)
    (hLedger : updateFees env.pool dir r.protocol_fee r.fund_fee = some pool1) :
    swapCommit env dir ti tout r =
      swapTransfers env
        { pool := pool1
          trade_direction := dir
          total_input := ti
          total_output := tout
          result := r
          inputTransferAmount :=
            r.source_amount_swapped +
              get_transfer_inverse_fee env.input_mint_schedule
                r.source_amount_swapped
          outputTransferAmount := r.destination_amount_swapped } := by
  unfold swapCommit
  rw [if_pos hPF, hLedger]

theorem swapTransfers_eval_inFail (env : SwapEnv) (s : SwapSuccess) (e : ℕ)
    (hTIn : env.transferIn s.inputTransferAmount = some e) :
    swapTransfers env s = .error (.Transfer e) := by
  unfold swapTransfers
  rw [hTIn]

theorem swapTransfers_eval_outFail (env : SwapEnv) (s : SwapSuccess) (e : ℕ)
    (hTIn : env.transferIn s.inputTransferAmount = none)
    (hTOut : env.transferOut s.outputTransferAmount = some e) :
    swapTransfers env s = .error (.Transfer e) := by
  unfold swapTransfers
  rw [hTIn]
  dsimp only
  rw [hTOut]

theorem swapCommit_ne_slippage (env : SwapEnv) (dir : TradeDirection)
    (ti tout : ℕ) (r : SwapResult) :
    swapCommit env dir ti tout r ≠ .error .ExceededSlippage := by
  unfold swapCommit swapTransfers
  split
  · split
    · intro h; exact absurd (Except.error.inj h) (by simp)
    · split
      · intro h; exact absurd (Except.error.inj h) (by simp)
      · split
        · intro h; exact absurd (Except.error.inj h) (by simp)
        · exact Except.noConfusion
  · intro h; exact absurd (Except.error.inj h) (by simp)

/-! ### Concrete environments used to instantiate the theorems -/

/-- A pool with empty fee accumulators, vault addresses 0 and 1, swapping
enabled. -/
def cPool : PoolState :=
  { token_0_vault := 0, token_1_vault := 1,
    protocol_fees_token_0 := 0, protocol_fees_token_1 := 0,
    fund_fees_token_0 := 0, fund_fees_token_1 := 0, swapEnabled := true }

/-- The concrete scenario of §8 of the spec: reserves 1,000,000 and
2,000,000, rates (2500, 120000, 40000), zero-fee mints, both transfers
succeeding. -/
def cEnv : SwapEnv :=
  { pool := cPool, input_vault_key := 0, output_vault_key := 1,
    input_vault_amount := 1000000, output_vault_amount := 2000000,
    input_mint_schedule := zeroFeeSchedule, output_mint_schedule := zeroFeeSchedule,
    trade_fee_rate := 2500, protocol_fee_rate := 120000, fund_fee_rate := 40000,
    transferIn := fun _ => none, transferOut := fun _ => none }

/-- The outcome of `swap cEnv 10000 1`. -/
def cS : SwapSuccess :=
  { pool := { cPool with protocol_fees_token_0 := 3, fund_fees_token_0 := 1 }
    trade_direction := .ZeroForOne
    total_input := 1000000
    total_output := 2000000
    result :=
      { new_swap_source_amount := 1009996
        new_swap_destination_amount := 1980248
        source_amount_swapped := 10000
        destination_amount_swapped := 19752
        protocol_fee := 3
        fund_fee := 1 }
    inputTransferAmount := 20000
    outputTransferAmount := 19752 }

theorem cSwap_eq : swap cEnv 10000 1 = .ok cS := rfl

/-- A configuration whose curve result strictly decreases the product: the
whole trade fee is carved out into protocol and fund fees
(rates 500000, 1000000, 1000000) and removed from the pricing reserve. -/
def cInvEnv : SwapEnv :=
  { pool := cPool, input_vault_key := 0, output_vault_key := 1,
    input_vault_amount := 10, output_vault_amount := 10,
    input_mint_schedule := zeroFeeSchedule, output_mint_schedule := zeroFeeSchedule,
    trade_fee_rate := 500000, protocol_fee_rate := 1000000, fund_fee_rate := 1000000,
    transferIn := fun _ => none, transferOut := fun _ => none }

/-- The curve result for `cInvEnv` with `amount_in = 10`. -/
def cInvRes : SwapResult :=
  { new_swap_source_amount := 10, new_swap_destination_amount := 7,
    source_amount_swapped := 10, destination_amount_swapped := 3,
    protocol_fee := 5, fund_fee := 5 }

/-- Net reserves so large that their 128-bit product check fails. -/
def cBigEnv : SwapEnv :=
  { pool := cPool, input_vault_key := 0, output_vault_key := 1,
    input_vault_amount := 2 ^ 64, output_vault_amount := 2 ^ 64,
    input_mint_schedule := zeroFeeSchedule, output_mint_schedule := zeroFeeSchedule,
    trade_fee_rate := 0, protocol_fee_rate := 0, fund_fee_rate := 0,
    transferIn := fun _ => none, transferOut := fun _ => none }

/-- A configuration whose post-trade product overflows 128 bits while the
pre-trade product still fits. -/
def cOverEnv : SwapEnv :=
  { pool := cPool, input_vault_key := 0, output_vault_key := 1,
    input_vault_amount := 1, output_vault_amount := 2 ^ 127,
    input_mint_schedule := zeroFeeSchedule, output_mint_schedule := zeroFeeSchedule,
    trade_fee_rate := 999999, protocol_fee_rate := 0, fund_fee_rate := 0,
    transferIn := fun _ => none, transferOut := fun _ => none }

/-- The curve result for `cOverEnv` with `amount_in = 1000000`. -/
def cOverRes : SwapResult :=
  { new_swap_source_amount := 1000001, new_swap_destination_amount := 2 ^ 126,
    source_amount_swapped := 1000000, destination_amount_swapped := 2 ^ 126,
    protocol_fee := 0, fund_fee := 0 }

/-! ### C1 -/

/-- C1: for every swap that returns success, the 128-bit product of the
post-trade reserves is at least the 128-bit product of the pre-trade net
reserves; whenever the post-trade product is strictly less than the
pre-trade product the swap fails with `InvariantViolation` without
committing any mutation; and both products go through checked 128-bit
multiplication whose overflow is fatal (an `ArithmeticOverflow` abort),
never wrapped. -/
theorem swap_invariant_guard :
    (∀ (env : SwapEnv) (a m : ℕ) (s : SwapSuccess), swap env a m = .ok s →
      s.total_input * s.total_output ≤
        s.result.new_swap_source_amount * s.result.new_swap_destination_amount) ∧
    (∀ (env : SwapEnv) (a m : ℕ) (dir : TradeDirection) (ti tout : ℕ)
        (r : SwapResult),
      env.pool.swapEnabled = true →
      computeTotals env = some (dir, ti, tout) →
      ti * tout < 2 ^ 128 →
      CurveCalculator.swap (a - get_transfer_fee env.input_mint_schedule a)
        ti tout dir env.trade_fee_rate env.protocol_fee_rate env.fund_fee_rate
        = some r →
      r.new_swap_source_amount * r.new_swap_destination_amount < ti * tout →
      swap env a m = .error .InvariantViolation ∧ finalPool env a m = env.pool) ∧
    (∀ (env : SwapEnv) (a m : ℕ) (dir : TradeDirection) (ti tout : ℕ),
      env.pool.swapEnabled = true →
      computeTotals env = some (dir, ti, tout) →
      ¬ (ti * tout < 2 ^ 128) →
      swap env a m = .error .ArithmeticOverflow ∧ finalPool env a m = env.pool) ∧
    (∀ (env : SwapEnv) (a m : ℕ) (dir : TradeDirection) (ti tout : ℕ)
        (r : SwapResult),
      env.pool.swapEnabled = true →
      computeTotals env = some (dir, ti, tout) →
      ti * tout < 2 ^ 128 →
      CurveCalculator.swap (a - get_transfer_fee env.input_mint_schedule a)
        ti tout dir env.trade_fee_rate env.protocol_fee_rate env.fund_fee_rate
        = some r →
      ¬ (r.new_swap_source_amount * r.new_swap_destination_amount < 2 ^ 128) →
      swap env a m = .error .ArithmeticOverflow ∧ finalPool env a m = env.pool) := by
  refine ⟨?_, ?_, ?_, ?_⟩
  · intro env a m s h
    exact (swap_ok_elim env a m s h).2.2.2.2.1
  · intro env a m dir ti tout r hEn hTot hBef hCurve hInv
    have heq := swap_eval_invariantViolation env a m dir ti tout r hEn hTot hBef
      hCurve (lt_trans hInv hBef) hInv
    exact ⟨heq, by unfold finalPool; rw [heq]⟩
  · intro env a m dir ti tout hEn hTot hBef
    have heq : swap env a m = .error .ArithmeticOverflow := by
      unfold swap
      rw [if_pos hEn, hTot]
      dsimp only
      rw [if_neg hBef]
    exact ⟨heq, by unfold finalPool; rw [heq]⟩
  · intro env a m dir ti tout r hEn hTot hBef hCurve hAft
    have heq : swap env a m = .error .ArithmeticOverflow := by
      unfold swap
      rw [if_pos hEn, hTot]
      dsimp only
      rw [if_pos hBef, hCurve]
      dsimp only
      rw [if_neg hAft]
    exact ⟨heq, by unfold finalPool; rw [heq]⟩

/-- Witness for C1: the success branch at the §8 scenario, the
strict-decrease branch at `cInvEnv`, and the two overflow branches at
`cBigEnv` and `cOverEnv`. -/
theorem swap_invariant_guard_witness :
    (cS.total_input * cS.total_output ≤
      cS.result.new_swap_source_amount * cS.result.new_swap_destination_amount) ∧
    (swap cInvEnv 10 0 = .error .InvariantViolation ∧
      finalPool cInvEnv 10 0 = cInvEnv.pool) ∧
    (swap cBigEnv 5 0 = .error .ArithmeticOverflow ∧
      finalPool cBigEnv 5 0 = cBigEnv.pool) ∧
    (swap cOverEnv 1000000 0 = .error .ArithmeticOverflow ∧
      finalPool cOverEnv 1000000 0 = cOverEnv.pool) :=
  ⟨swap_invariant_guard.1 cEnv 10000 1 cS cSwap_eq,
   swap_invariant_guard.2.1 cInvEnv 10 0 .ZeroForOne 10 10 cInvRes
     (by decide) (by decide) (by decide) (by decide) (by decide),
   swap_invariant_guard.2.2.1 cBigEnv 5 0 .ZeroForOne (2 ^ 64) (2 ^ 64)
     (by decide) (by decide) (by decide),
   swap_invariant_guard.2.2.2 cOverEnv 1000000 0 .ZeroForOne 1 (2 ^ 127) cOverRes
     (by decide) (by decide) (by decide) (by decide) (by decide)⟩

/-! ### C2 -/

/-- A pool whose token-0 fee accumulator is 5, with distinct vault balances,
addressed by a OneForZero call (input vault = token-1 vault, key 1). -/
def c2Pool : PoolState :=
  { token_0_vault := 0, token_1_vault := 1,
    protocol_fees_token_0 := 5, protocol_fees_token_1 := 0,
    fund_fees_token_0 := 0, fund_fees_token_1 := 0, swapEnabled := true }

/-- OneForZero call on `c2Pool`: the input vault is the token-1 vault with
raw balance 200; the output vault is the token-0 vault with raw balance
100. -/
def c2Env : SwapEnv :=
  { pool := c2Pool, input_vault_key := 1, output_vault_key := 0,
    input_vault_amount := 200, output_vault_amount := 100,
    input_mint_schedule := zeroFeeSchedule, output_mint_schedule := zeroFeeSchedule,
    trade_fee_rate := 0, protocol_fee_rate := 0, fund_fee_rate := 0,
    transferIn := fun _ => none, transferOut := fun _ => none }

/-- C2 (evaluation at the failing input): in the OneForZero branch the
handler destructures `vault_amount_without_fee(output, input)` as
`(total_input, total_output)`, so `total_input` becomes the net token-0
(output-side) balance 100 − 5 = 95 instead of the net token-1 (input-side)
balance 200 − 0 = 200; the two values differ, so the claimed formation of
the net reserves fails on this input. -/
theorem oneForZero_totals_use_wrong_side :
    computeTotals c2Env = some (.OneForZero, 95, 200) ∧
    c2Env.input_vault_amount -
      (c2Env.pool.protocol_fees_token_1 + c2Env.pool.fund_fees_token_1) = 200 ∧
    c2Env.output_vault_amount -
      (c2Env.pool.protocol_fees_token_0 + c2Env.pool.fund_fees_token_0) = 95 ∧
    (95 : ℕ) ≠ 200 := by
  refine ⟨rfl, rfl, rfl, by decide⟩

/-! ### C3 -/

/-- C3: once the earlier stages pass, the swap fails with
`ExceededSlippage` exactly when the net received amount
(`destination_amount_swapped` minus the output mint's forward fee) is
strictly below the caller's minimum, and on that failure the pool record is
unchanged and neither transfer executor is consulted. -/
theorem swap_slippage_guard :
    ∀ (env : SwapEnv) (a m : ℕ) (dir : TradeDirection) (ti tout : ℕ)
      (r : SwapResult),
      env.pool.swapEnabled = true →
      computeTotals env = some (dir, ti, tout) →
      ti * tout < 2 ^ 128 →
      CurveCalculator.swap (a - get_transfer_fee env.input_mint_schedule a)
        ti tout dir env.trade_fee_rate env.protocol_fee_rate env.fund_fee_rate
        = some r →
      r.new_swap_source_amount * r.new_swap_destination_amount < 2 ^ 128 →
      ¬ (r.new_swap_source_amount * r.new_swap_destination_amount < ti * tout) →
      r.source_amount_swapped < 2 ^ 64 →
      r.source_amount_swapped + get_transfer_inverse_fee env.input_mint_schedule
        r.source_amount_swapped < 2 ^ 64 →
      r.destination_amount_swapped < 2 ^ 64 →
      forwardFee env.output_mint_schedule r.destination_amount_swapped ≤
        r.destination_amount_swapped →
      ((swap env a m = .error .ExceededSlippage ↔
        r.destination_amount_swapped -
          forwardFee env.output_mint_schedule r.destination_amount_swapped < m) ∧
      (r.destination_amount_swapped -
          forwardFee env.output_mint_schedule r.destination_amount_swapped < m →
        finalPool env a m = env.pool ∧
        ∀ tIn tOut : ℕ → Option ℕ,
          swap { env with transferIn := tIn, transferOut := tOut } a m =
            .error .ExceededSlippage)) := by
  intro env a m dir ti tout r hEn hTot hBef hCurve hAft hInv hSrc hAdd hDst hFee
  have hIssue : swap env a m = swapIssue env m dir ti tout r :=
    swap_eval_issue env a m dir ti tout r hEn hTot hBef hCurve hAft hInv
  constructor
  · constructor
    · intro hES
      by_contra hge
      rw [hIssue, swapIssue_eval_commit env m dir ti tout r hSrc hAdd hDst hFee hge]
        at hES
      exact swapCommit_ne_slippage env dir ti tout r hES
    · intro hlt
      rw [hIssue]
      exact swapIssue_eval_slippage env m dir ti tout r hSrc hAdd hDst hFee hlt
  · intro hlt
    have heq : swap env a m = .error .ExceededSlippage := by
      rw [hIssue]
      exact swapIssue_eval_slippage env m dir ti tout r hSrc hAdd hDst hFee hlt
    refine ⟨by unfold finalPool; rw [heq], ?_⟩
    intro tIn tOut
    have hIssue' : swap { env with transferIn := tIn, transferOut := tOut } a m =
        swapIssue { env with transferIn := tIn, transferOut := tOut } m dir ti tout r :=
      swap_eval_issue _ a m dir ti tout r hEn hTot hBef hCurve hAft hInv
    rw [hIssue']
    exact swapIssue_eval_slippage _ m dir ti tout r hSrc hAdd hDst hFee hlt

/-- Witness for C3: the §8 scenario with an impossibly large minimum;
19752 net received is below the minimum, so the call fails with
`ExceededSlippage`, leaves the pool unchanged and consults no transfer
executor. -/
theorem swap_slippage_guard_witness :
    ((swap cEnv 10000 1000000000000000000 = .error .ExceededSlippage ↔
      cS.result.destination_amount_swapped -
        forwardFee cEnv.output_mint_schedule cS.result.destination_amount_swapped <
        1000000000000000000) ∧
    (cS.result.destination_amount_swapped -
        forwardFee cEnv.output_mint_schedule cS.result.destination_amount_swapped <
        1000000000000000000 →
      finalPool cEnv 10000 1000000000000000000 = cEnv.pool ∧
      ∀ tIn tOut : ℕ → Option ℕ,
        swap { cEnv with transferIn := tIn, transferOut := tOut } 10000
          1000000000000000000 = .error .ExceededSlippage)) :=
  swap_slippage_guard cEnv 10000 1000000000000000000 .ZeroForOne 1000000 2000000
    cS.result (by decide) (by decide) (by decide) (by decide) (by decide)
    (by decide) (by decide) (by decide) (by decide) (by decide)

/-! ### C4 -/

/-- C4: when either external transfer fails, the swap fails with exactly
that transfer error and no persistent mutation survives: the observable
pool record (protocol-fee and fund-fee accumulators included) equals its
pre-call value. -/
theorem swap_transfer_failure_atomic :
    ∀ (env : SwapEnv) (a m : ℕ) (dir : TradeDirection) (ti tout : ℕ)
      (r : SwapResult) (pool1 : PoolState),
      env.pool.swapEnabled = true →
      computeTotals env = some (dir, ti, tout) →
      ti * tout < 2 ^ 128 →
      CurveCalculator.swap (a - get_transfer_fee env.input_mint_schedule a)
        ti tout dir env.trade_fee_rate env.protocol_fee_rate env.fund_fee_rate
        = some r →
      r.new_swap_source_amount * r.new_swap_destination_amount < 2 ^ 128 →
      ¬ (r.new_swap_source_amount * r.new_swap_destination_amount < ti * tout) →
      r.source_amount_swapped < 2 ^ 64 →
      r.source_amount_swapped + get_transfer_inverse_fee env.input_mint_schedule
        r.source_amount_swapped < 2 ^ 64 →
      r.destination_amount_swapped < 2 ^ 64 →
      forwardFee env.output_mint_schedule r.destination_amount_swapped ≤
        r.destination_amount_swapped →
      ¬ (r.destination_amount_swapped -
          forwardFee env.output_mint_schedule r.destination_amount_swapped < m) →
      r.protocol_fee < 2 ^ 64 ∧ r.fund_fee < 2 ^ 64 →
      updateFees env.pool dir r.protocol_fee r.fund_fee = some pool1 →
      ((∀ e : ℕ,
        env.transferIn (r.source_amount_swapped + get_transfer_inverse_fee
          env.input_mint_schedule r.source_amount_swapped) = some e →
        swap env a m = .error (.Transfer e) ∧ finalPool env a m = env.pool) ∧
      (env.transferIn (r.source_amount_swapped + get_transfer_inverse_fee
          env.input_mint_schedule r.source_amount_swapped) = none →
        ∀ e : ℕ, env.transferOut r.destination_amount_swapped = some e →
        swap env a m = .error (.Transfer e) ∧ finalPool env a m = env.pool)) := by
  intro env a m dir ti tout r pool1 hEn hTot hBef hCurve hAft hInv hSrc hAdd hDst
    hFee hSlip hPF hLedger
  have hChain : swap env a m =
      swapTransfers env
        { pool := pool1
          trade_direction := dir
          total_input := ti
          total_output := tout
          result := r
          inputTransferAmount :=
            r.source_amount_swapped +
              get_transfer_inverse_fee env.input_mint_schedule
                r.source_amount_swapped
          outputTransferAmount := r.destination_amount_swapped } := by
    rw [swap_eval_issue env a m dir ti tout r hEn hTot hBef hCurve hAft hInv,
      swapIssue_eval_commit env m dir ti tout r hSrc hAdd hDst hFee hSlip,
      swapCommit_eval_transfers env dir ti tout r pool1 hPF hLedger]
  constructor
  · intro e hIn
    have heq : swap env a m = .error (.Transfer e) := by
      rw [hChain]
      exact swapTransfers_eval_inFail env _ e hIn
    exact ⟨heq, by unfold finalPool; rw [heq]⟩
  · intro hIn e hOut
    have heq : swap env a m = .error (.Transfer e) := by
      rw [hChain]
      exact swapTransfers_eval_outFail env _ e hIn hOut
    exact ⟨heq, by unfold finalPool; rw [heq]⟩

/-- The §8 scenario with a failing transfer-in executor (error code 7). -/
def cFailInEnv : SwapEnv := { cEnv with transferIn := fun _ => some 7 }

/-- The §8 scenario with a failing transfer-out executor (error code 9). -/
def cFailOutEnv : SwapEnv := { cEnv with transferOut := fun _ => some 9 }

/-- Witness for C4: a failing transfer-in and a failing transfer-out each
abort the §8 scenario with the propagated error and an unchanged pool. -/
theorem swap_transfer_failure_atomic_witness :
    (swap cFailInEnv 10000 1 = .error (.Transfer 7) ∧
      finalPool cFailInEnv 10000 1 = cFailInEnv.pool) ∧
    (swap cFailOutEnv 10000 1 = .error (.Transfer 9) ∧
      finalPool cFailOutEnv 10000 1 = cFailOutEnv.pool) :=
  ⟨(swap_transfer_failure_atomic cFailInEnv 10000 1 .ZeroForOne 1000000 2000000
      cS.result cS.pool (by decide) (by decide) (by decide) (by decide)
      (by decide) (by decide) (by decide) (by decide) (by decide) (by decide)
      (by decide) (by decide) (by decide)).1 7 rfl,
   (swap_transfer_failure_atomic cFailOutEnv 10000 1 .ZeroForOne 1000000 2000000
      cS.result cS.pool (by decide) (by decide) (by decide) (by decide)
      (by decide) (by decide) (by decide) (by decide) (by decide) (by decide)
      (by decide) (by decide) (by decide)).2 rfl 9 rfl⟩

/-! ### C5 -/

/-- A pool whose net input-side reserve is zero (empty token-0 vault) while
the output vault holds 10 tokens, with all fee rates zero. -/
def cDrainEnv : SwapEnv :=
  { pool := cPool, input_vault_key := 0, output_vault_key := 1,
    input_vault_amount := 0, output_vault_amount := 10,
    input_mint_schedule := zeroFeeSchedule, output_mint_schedule := zeroFeeSchedule,
    trade_fee_rate := 0, protocol_fee_rate := 0, fund_fee_rate := 0,
    transferIn := fun _ => none, transferOut := fun _ => none }

/-- The outcome of `swap cDrainEnv 5 0`. -/
def cDrainS : SwapSuccess :=
  { pool := cPool
    trade_direction := .ZeroForOne
    total_input := 0
    total_output := 10
    result :=
      { new_swap_source_amount := 5, new_swap_destination_amount := 0,
        source_amount_swapped := 5, destination_amount_swapped := 10,
        protocol_fee := 0, fund_fee := 0 }
    inputTransferAmount := 10
    outputTransferAmount := 10 }

/-- Counterexample to C5's final part: with a zero net input reserve the
swap succeeds while transferring out the entire 10-token output reserve
and leaving the new destination reserve at zero — it does not fail with
`ZeroTradingTokens`. -/
theorem swap_drains_reserve_counterexample :
    swap cDrainEnv 5 0 = .ok cDrainS ∧
    0 < cDrainEnv.output_vault_amount ∧
    cDrainS.result.new_swap_destination_amount = 0 ∧
    cDrainS.outputTransferAmount = cDrainEnv.output_vault_amount :=
  ⟨rfl, by decide, rfl, rfl⟩

/-- C5 (amended): the swap fails with `ZeroTradingTokens` whenever
`actualAmountIn = 0`, `totalOutput = 0`, or the computed
`destinationAmountSwapped = 0`; in particular a call with `amount_in = 0`
fails with `ZeroTradingTokens` and mutates no state; and — provided the
pre-swap net input reserve is positive — a successful swap never drains a
reserve to zero: both post-trade reserves stay positive. -/
theorem swap_zero_trading_tokens :
    (∀ (env : SwapEnv) (a m : ℕ) (dir : TradeDirection) (ti tout : ℕ),
      env.pool.swapEnabled = true →
      computeTotals env = some (dir, ti, tout) →
      ti * tout < 2 ^ 128 →
      (a - get_transfer_fee env.input_mint_schedule a = 0 ∨ tout = 0 ∨
        tout * ((a - get_transfer_fee env.input_mint_schedule a) -
            (a - get_transfer_fee env.input_mint_schedule a) * env.trade_fee_rate /
              FEE_RATE_DENOMINATOR_VALUE) /
          (ti + ((a - get_transfer_fee env.input_mint_schedule a) -
            (a - get_transfer_fee env.input_mint_schedule a) * env.trade_fee_rate /
              FEE_RATE_DENOMINATOR_VALUE)) = 0) →
      swap env a m = .error .ZeroTradingTokens ∧ finalPool env a m = env.pool) ∧
    (∀ (env : SwapEnv) (m : ℕ) (dir : TradeDirection) (ti tout : ℕ),
      env.pool.swapEnabled = true →
      computeTotals env = some (dir, ti, tout) →
      ti * tout < 2 ^ 128 →
      swap env 0 m = .error .ZeroTradingTokens ∧ finalPool env 0 m = env.pool) ∧
    (∀ (env : SwapEnv) (a m : ℕ) (s : SwapSuccess),
      swap env a m = .ok s → 0 < s.total_input →
      0 < s.result.new_swap_source_amount ∧
      0 < s.result.new_swap_destination_amount) := by
  have hcurveNone : ∀ (a ti tout : ℕ) (dir : TradeDirection) (f1 f2 f3 : ℕ),
      (a = 0 ∨ tout = 0 ∨
        tout * (a - a * f1 / FEE_RATE_DENOMINATOR_VALUE) /
          (ti + (a - a * f1 / FEE_RATE_DENOMINATOR_VALUE)) = 0) →
      CurveCalculator.swap a ti tout dir f1 f2 f3 = none := by
    intro a ti tout dir f1 f2 f3 hcond
    simp only [CurveCalculator.swap]
    rw [if_pos hcond]
  refine ⟨?_, ?_, ?_⟩
  · intro env a m dir ti tout hEn hTot hBef hdisj
    have hCurve := hcurveNone (a - get_transfer_fee env.input_mint_schedule a)
      ti tout dir env.trade_fee_rate env.protocol_fee_rate env.fund_fee_rate hdisj
    have heq := swap_eval_zeroTradingTokens env a m dir ti tout hEn hTot hBef hCurve
    exact ⟨heq, by unfold finalPool; rw [heq]⟩
  · intro env m dir ti tout hEn hTot hBef
    have hCurve := hcurveNone (0 - get_transfer_fee env.input_mint_schedule 0)
      ti tout dir env.trade_fee_rate env.protocol_fee_rate env.fund_fee_rate
      (Or.inl (by omega))
    have heq := swap_eval_zeroTradingTokens env 0 m dir ti tout hEn hTot hBef hCurve
    exact ⟨heq, by unfold finalPool; rw [heq]⟩
  · intro env a m s h hti
    obtain ⟨-, -, -, hCurve, hinv, -⟩ := swap_ok_elim env a m s h
    obtain ⟨-, -, -, -, -, -, -, hto0, -⟩ := curve_swap_some_elim hCurve
    have hpos : 0 < s.result.new_swap_source_amount *
        s.result.new_swap_destination_amount :=
      lt_of_lt_of_le (Nat.mul_pos hti (Nat.pos_of_ne_zero hto0)) hinv
    constructor
    · rcases Nat.eq_zero_or_pos s.result.new_swap_source_amount with h0 | hgt
      · rw [h0] at hpos
        simp at hpos
      · exact hgt
    · rcases Nat.eq_zero_or_pos s.result.new_swap_destination_amount with h0 | hgt
      · rw [h0] at hpos
        simp at hpos
      · exact hgt

/-- Witness for C5: a zero `amount_in` on the §8 scenario fails with
`ZeroTradingTokens` leaving the pool unchanged (through both the
degenerate-amount clause and the `amount_in = 0` clause), and the §8
scenario's success keeps both post-trade reserves positive. -/
theorem swap_zero_trading_tokens_witness :
    (swap cEnv 0 7 = .error .ZeroTradingTokens ∧ finalPool cEnv 0 7 = cEnv.pool) ∧
    (swap cEnv 0 5 = .error .ZeroTradingTokens ∧ finalPool cEnv 0 5 = cEnv.pool) ∧
    (0 < cS.total_input → 0 < cS.result.new_swap_source_amount ∧
      0 < cS.result.new_swap_destination_amount) :=
  ⟨swap_zero_trading_tokens.1 cEnv 0 7 .ZeroForOne 1000000 2000000
      (by decide) (by decide) (by decide) (Or.inl (by decide)),
   swap_zero_trading_tokens.2.1 cEnv 5 .ZeroForOne 1000000 2000000
      (by decide) (by decide) (by decide),
   fun h => swap_zero_trading_tokens.2.2 cEnv 10000 1 cS cSwap_eq h⟩

/-! ### C6 -/

/-- C6: the amount fed to the Curve Calculator (returned unchanged as
`source_amount_swapped`) is `amount_in` minus the input mint's forward
transfer fee; for the zero fee schedule it is `amount_in` itself. -/
theorem swap_strips_input_transfer_fee :
    ∀ (env : SwapEnv) (a m : ℕ) (s : SwapSuccess),
      swap env a m = .ok s →
      s.result.source_amount_swapped =
        a - forwardFee env.input_mint_schedule a ∧
      (env.input_mint_schedule = zeroFeeSchedule →
        s.result.source_amount_swapped = a) := by
  intro env a m s h
  obtain ⟨-, -, -, hCurve, -⟩ := swap_ok_elim env a m s h
  obtain ⟨hsrc, -⟩ := curve_swap_some_elim hCurve
  refine ⟨hsrc, ?_⟩
  intro hz
  rw [hsrc, hz]
  rw [show get_transfer_fee zeroFeeSchedule a = 0 from forwardFee_zeroSchedule a]
  omega

/-- Witness for C6: at the §8 scenario (zero-fee mint) the curve receives
the full 10000. -/
theorem swap_strips_input_transfer_fee_witness :
    cS.result.source_amount_swapped =
      10000 - forwardFee cEnv.input_mint_schedule 10000 ∧
    (cEnv.input_mint_schedule = zeroFeeSchedule →
      cS.result.source_amount_swapped = 10000) :=
  swap_strips_input_transfer_fee cEnv 10000 1 cS cSwap_eq

/-! ### C7 -/

/-- C7: every successful swap transfers in
`actualAmountIn + inverseFee(inputMintSchedule, actualAmountIn)` gross and
transfers out exactly `destination_amount_swapped` gross, where
`inverseFee(schedule, desiredNet)` is the minimal gross amount whose net
after the forward fee is at least `desiredNet`. -/
theorem swap_transfer_amounts :
    ∀ (env : SwapEnv) (a m : ℕ) (s : SwapSuccess),
      swap env a m = .ok s →
      s.inputTransferAmount =
        (a - forwardFee env.input_mint_schedule a) +
          inverseFee env.input_mint_schedule
            (a - forwardFee env.input_mint_schedule a) ∧
      s.outputTransferAmount = s.result.destination_amount_swapped ∧
      (∀ (sch : FeeSchedule) (d : ℕ),
        d ≤ inverseFee sch d - forwardFee sch (inverseFee sch d) ∧
        ∀ g : ℕ, d ≤ g - forwardFee sch g → inverseFee sch d ≤ g) := by
  intro env a m s h
  obtain ⟨-, -, -, hCurve, -, -, -, hin, -, -, -, -, hout, -⟩ :=
    swap_ok_elim env a m s h
  obtain ⟨hsrc, -⟩ := curve_swap_some_elim hCurve
  refine ⟨?_, hout, ?_⟩
  · rw [hin, hsrc]
    rfl
  · intro sch d
    exact ⟨inverseFee_net_ge sch d, fun g hg => inverseFee_minimal sch d g hg⟩

/-- Witness for C7: the §8 scenario transfers in 10000 + 10000 and
transfers out 19752, and the inverse fee there is minimal. -/
theorem swap_transfer_amounts_witness :
    cS.inputTransferAmount =
      (10000 - forwardFee cEnv.input_mint_schedule 10000) +
        inverseFee cEnv.input_mint_schedule
          (10000 - forwardFee cEnv.input_mint_schedule 10000) ∧
    cS.outputTransferAmount = cS.result.destination_amount_swapped ∧
    (∀ (sch : FeeSchedule) (d : ℕ),
      d ≤ inverseFee sch d - forwardFee sch (inverseFee sch d) ∧
      ∀ g : ℕ, d ≤ g - forwardFee sch g → inverseFee sch d ≤ g) :=
  swap_transfer_amounts cEnv 10000 1 cS cSwap_eq

/-! ### C8 -/

/-- C8: a successful swap adds the protocol and fund fees to the
accumulator pair of the input asset side only (token-0 accumulators for
ZeroForOne, token-1 accumulators for OneForZero), the updated values stay
inside the checked 64-bit domain, the opposite side is untouched, and all
four accumulators are monotonically non-decreasing. -/
theorem swap_fee_ledger_update :
    ∀ (env : SwapEnv) (a m : ℕ) (s : SwapSuccess),
      swap env a m = .ok s →
      (s.trade_direction = .ZeroForOne →
        s.pool.protocol_fees_token_0 =
          env.pool.protocol_fees_token_0 + s.result.protocol_fee ∧
        s.pool.fund_fees_token_0 =
          env.pool.fund_fees_token_0 + s.result.fund_fee ∧
        s.pool.protocol_fees_token_1 = env.pool.protocol_fees_token_1 ∧
        s.pool.fund_fees_token_1 = env.pool.fund_fees_token_1) ∧
      (s.trade_direction = .OneForZero →
        s.pool.protocol_fees_token_1 =
          env.pool.protocol_fees_token_1 + s.result.protocol_fee ∧
        s.pool.fund_fees_token_1 =
          env.pool.fund_fees_token_1 + s.result.fund_fee ∧
        s.pool.protocol_fees_token_0 = env.pool.protocol_fees_token_0 ∧
        s.pool.fund_fees_token_0 = env.pool.fund_fees_token_0) ∧
      env.pool.protocol_fees_token_0 ≤ s.pool.protocol_fees_token_0 ∧
      env.pool.fund_fees_token_0 ≤ s.pool.fund_fees_token_0 ∧
      env.pool.protocol_fees_token_1 ≤ s.pool.protocol_fees_token_1 ∧
      env.pool.fund_fees_token_1 ≤ s.pool.fund_fees_token_1 := by
  intro env a m s h
  obtain ⟨-, -, -, -, -, -, -, -, -, -, -, -, -, -, -, hLedger, -⟩ :=
    swap_ok_elim env a m s h
  obtain ⟨h0, h1⟩ := updateFees_elim hLedger
  refine ⟨h0, h1, ?_⟩
  cases hdir : s.trade_direction
  · obtain ⟨e1, e2, e3, e4⟩ := h0 hdir
    omega
  · obtain ⟨e1, e2, e3, e4⟩ := h1 hdir
    omega

/-- Witness for C8: the §8 scenario (a ZeroForOne swap) adds 3 and 1 to the
token-0 accumulators and leaves the token-1 accumulators at 0. -/
theorem swap_fee_ledger_update_witness :
    (cS.trade_direction = .ZeroForOne →
      cS.pool.protocol_fees_token_0 =
        cEnv.pool.protocol_fees_token_0 + cS.result.protocol_fee ∧
      cS.pool.fund_fees_token_0 =
        cEnv.pool.fund_fees_token_0 + cS.result.fund_fee ∧
      cS.pool.protocol_fees_token_1 = cEnv.pool.protocol_fees_token_1 ∧
      cS.pool.fund_fees_token_1 = cEnv.pool.fund_fees_token_1) ∧
    (cS.trade_direction = .OneForZero →
      cS.pool.protocol_fees_token_1 =
        cEnv.pool.protocol_fees_token_1 + cS.result.protocol_fee ∧
      cS.pool.fund_fees_token_1 =
        cEnv.pool.fund_fees_token_1 + cS.result.fund_fee ∧
      cS.pool.protocol_fees_token_0 = cEnv.pool.protocol_fees_token_0 ∧
      cS.pool.fund_fees_token_0 = cEnv.pool.fund_fees_token_0) ∧
    cEnv.pool.protocol_fees_token_0 ≤ cS.pool.protocol_fees_token_0 ∧
    cEnv.pool.fund_fees_token_0 ≤ cS.pool.fund_fees_token_0 ∧
    cEnv.pool.protocol_fees_token_1 ≤ cS.pool.protocol_fees_token_1 ∧
    cEnv.pool.fund_fees_token_1 ≤ cS.pool.fund_fees_token_1 :=
  swap_fee_ledger_update cEnv 10000 1 cS cSwap_eq

/-! ### C9 -/

/-- C9: for every rate configuration with
`protocol_fee_rate + fund_fee_rate ≤ DENOMINATOR`, the curve's fee split
has `protocolFee = floor(tradeFee * protocolFeeRate / DENOMINATOR)` and
`fundFee = floor(tradeFee * fundFeeRate / DENOMINATOR)`, and
`protocolFee + fundFee ≤ tradeFee`: the sub-fees are carved out of the
trade fee, never added on top. -/
theorem curve_fee_split_bounded :
    ∀ (a ti tout : ℕ) (dir : TradeDirection) (f1 f2 f3 : ℕ) (r : SwapResult),
      CurveCalculator.swap a ti tout dir f1 f2 f3 = some r →
      f2 + f3 ≤ FEE_RATE_DENOMINATOR_VALUE →
      r.protocol_fee =
        a * f1 / FEE_RATE_DENOMINATOR_VALUE * f2 / FEE_RATE_DENOMINATOR_VALUE ∧
      r.fund_fee =
        a * f1 / FEE_RATE_DENOMINATOR_VALUE * f3 / FEE_RATE_DENOMINATOR_VALUE ∧
      r.protocol_fee + r.fund_fee ≤ a * f1 / FEE_RATE_DENOMINATOR_VALUE := by
  intro a ti tout dir f1 f2 f3 r h hrate
  obtain ⟨-, hpf, hff, -⟩ := curve_swap_some_elim h
  refine ⟨hpf, hff, ?_⟩
  rw [hpf, hff]
  have hD : 0 < FEE_RATE_DENOMINATOR_VALUE := by decide
  have h1 : a * f1 / FEE_RATE_DENOMINATOR_VALUE * f2 / FEE_RATE_DENOMINATOR_VALUE +
      a * f1 / FEE_RATE_DENOMINATOR_VALUE * f3 / FEE_RATE_DENOMINATOR_VALUE ≤
      (a * f1 / FEE_RATE_DENOMINATOR_VALUE * f2 +
        a * f1 / FEE_RATE_DENOMINATOR_VALUE * f3) / FEE_RATE_DENOMINATOR_VALUE := by
    rw [Nat.le_div_iff_mul_le hD, Nat.add_mul]
    exact Nat.add_le_add (Nat.div_mul_le_self _ _) (Nat.div_mul_le_self _ _)
  have h2 : (a * f1 / FEE_RATE_DENOMINATOR_VALUE * f2 +
      a * f1 / FEE_RATE_DENOMINATOR_VALUE * f3) / FEE_RATE_DENOMINATOR_VALUE ≤
      a * f1 / FEE_RATE_DENOMINATOR_VALUE := by
    rw [← Nat.mul_add]
    calc a * f1 / FEE_RATE_DENOMINATOR_VALUE * (f2 + f3) /
          FEE_RATE_DENOMINATOR_VALUE
        ≤ a * f1 / FEE_RATE_DENOMINATOR_VALUE * FEE_RATE_DENOMINATOR_VALUE /
          FEE_RATE_DENOMINATOR_VALUE :=
          Nat.div_le_div_right (Nat.mul_le_mul_left _ hrate)
      _ = a * f1 / FEE_RATE_DENOMINATOR_VALUE := Nat.mul_div_cancel _ hD
  omega

/-- Witness for C9: the §8 scenario's rates (120000 + 40000 ≤ 1000000) give
`protocolFee = 3`, `fundFee = 1`, and 3 + 1 ≤ 25 = tradeFee. -/
theorem curve_fee_split_bounded_witness :
    cS.result.protocol_fee =
      10000 * 2500 / FEE_RATE_DENOMINATOR_VALUE * 120000 /
        FEE_RATE_DENOMINATOR_VALUE ∧
    cS.result.fund_fee =
      10000 * 2500 / FEE_RATE_DENOMINATOR_VALUE * 40000 /
        FEE_RATE_DENOMINATOR_VALUE ∧
    cS.result.protocol_fee + cS.result.fund_fee ≤
      10000 * 2500 / FEE_RATE_DENOMINATOR_VALUE :=
  curve_fee_split_bounded 10000 1000000 2000000 .ZeroForOne 2500 120000 40000
    cS.result (by decide) (by decide)

/-! ### C10 -/

/-- The §8 scenario rebound so that both vault accounts are the pool's
token-0 vault. -/
def cSameVaultEnv : SwapEnv := { cEnv with output_vault_key := 0 }

/-- C10: the trade direction is decided solely by whether the input vault's
key equals the pool's `token_0_vault` (ZeroForOne exactly then, OneForZero
otherwise); the output vault's identity never influences the direction; and
the account constraints admit a call in which both vault accounts are the
same pool vault. -/
theorem trade_direction_from_input_vault :
    (∀ (env : SwapEnv) (dir : TradeDirection) (ti tout : ℕ),
      computeTotals env = some (dir, ti, tout) →
      (dir = .ZeroForOne ↔ env.input_vault_key = env.pool.token_0_vault)) ∧
    (∀ (env : SwapEnv) (k : ℕ),
      computeTotals { env with output_vault_key := k } = computeTotals env) ∧
    (swapConstraintsOk cSameVaultEnv = true ∧
      cSameVaultEnv.input_vault_key = cSameVaultEnv.output_vault_key) := by
  refine ⟨?_, ?_, by decide, by decide⟩
  · intro env dir ti tout h
    unfold computeTotals at h
    by_cases hk : env.input_vault_key = env.pool.token_0_vault
    · rw [if_pos hk] at h
      rcases hv : env.pool.vault_amount_without_fee env.input_vault_amount
          env.output_vault_amount with _ | t
      · rw [hv] at h
        exact Option.noConfusion h
      · rw [hv] at h
        simp only [Option.map_some'] at h
        obtain ⟨hd, -⟩ := Prod.mk.injEq .. ▸ (Option.some.inj h)
        exact iff_of_true hd.symm hk
    · rw [if_neg hk] at h
      rcases hv : env.pool.vault_amount_without_fee env.output_vault_amount
          env.input_vault_amount with _ | t
      · rw [hv] at h
        exact Option.noConfusion h
      · rw [hv] at h
        simp only [Option.map_some'] at h
        obtain ⟨hd, -⟩ := Prod.mk.injEq .. ▸ (Option.some.inj h)
        exact iff_of_false (by rw [← hd]; exact fun hc => TradeDirection.noConfusion hc) hk
  · intro env k
    rfl

/-- Witness for C10: at the §8 scenario the computed direction is
ZeroForOne if and only if the input vault is the token-0 vault. -/
theorem trade_direction_from_input_vault_witness :
    TradeDirection.ZeroForOne = TradeDirection.ZeroForOne ↔
      cEnv.input_vault_key = cEnv.pool.token_0_vault :=
  trade_direction_from_input_vault.1 cEnv .ZeroForOne 1000000 2000000 (by decide)
